import Mathlib

/-!
Verification of the arbitrage bot core (`src/framework`) against its
natural-language specification.

Shallow embedding conventions:
* Python floats that hold money, prices and rates are modelled as `ℚ`
  (the claims under scrutiny are algebraic, not about rounding).
* Python dicts keyed by strings are modelled either as total functions
  `String → _` together with the list of live keys, or as association
  lists, matching how each source function uses them.
* Fallible operations (Python code that can raise) return `Option`/`Except`.
* External collaborators (ccxt exchange gateways) appear as oracle
  parameters: a call that the Python code makes on a ccxt object becomes a
  function argument whose result the embedding consumes.
-/

/-- State of `AccountManager` (src/framework/account_manager.py).
`account_values` models the dict `{exchange: value}`; its live keys are
the `exchanges` list, exactly as `__init__` builds the dict. -/
structure AccountManager where
  average_fee : ℚ
  exchanges : List String
  account_values : String → ℚ
  tax_tally : ℚ
  fees_tally : ℚ
  money_out_tally : ℚ

/-- `sum(self.account_values.values())`: the dict's keys are `exchanges`. -/
def AccountManager.totalValue (m : AccountManager) : ℚ :=
  (m.exchanges.map m.account_values).sum

/-- `AccountManager.rebalance_accounts` (account_manager.py lines 40-53):
`avg_value = total_value / len(self.exchanges)` and every exchange's entry
is set to `avg_value`. -/
def AccountManager.rebalance_accounts (m : AccountManager) : AccountManager :=
  let avg_value := m.totalValue / (m.exchanges.length : ℚ)
  { m with
    account_values := fun e => if e ∈ m.exchanges then avg_value else m.account_values e }

/-- The two dict writes of `update_account_values` (account_manager.py
lines 69-70): `self.account_values[buy_exchange] -= trade_value` then
`self.account_values[sell_exchange] += trade_value + net_profit`. -/
def AccountManager.postTradeValues (m : AccountManager)
    (buy_exchange sell_exchange : String) (trade_value net_profit : ℚ) : String → ℚ :=
  let av1 := Function.update m.account_values buy_exchange
    (m.account_values buy_exchange - trade_value)
  Function.update av1 sell_exchange (av1 sell_exchange + (trade_value + net_profit))

/-- `AccountManager.update_account_values` (account_manager.py lines 55-74):
deduct `trade_value` from the buy exchange, add `trade_value + net_profit`
to the sell exchange, then rebalance. -/
def AccountManager.update_account_values (m : AccountManager)
    (buy_exchange sell_exchange : String) (trade_value net_profit : ℚ) : AccountManager :=
  AccountManager.rebalance_accounts
    { m with account_values := m.postTradeValues buy_exchange sell_exchange trade_value net_profit }

/-- State of `ProfitCalculator` (src/framework/profit_calculator.py). -/
structure ProfitCalculator where
  average_fee : ℚ
  tax_rate : ℚ
  tax_tally : ℚ
  fees_tally : ℚ

/-- The triple returned by `calculate_net_profit`. -/
structure NetProfitResult where
  net_profit : ℚ
  fees : ℚ
  taxes : ℚ

/-- `ProfitCalculator.calculate_net_profit` (profit_calculator.py lines 43-66).
Note: line 61 of the source is `taxes = gross_profit * 0.275` — the literal
`0.275`, not the stored `self.tax_rate`. The embedding reproduces that
literal. `0.275 = 275/1000`, `0.002867 = 2867/1000000`. -/
def ProfitCalculator.calculate_net_profit (pc : ProfitCalculator)
    (gross_profit trade_value : ℚ) : NetProfitResult × ProfitCalculator :=
  let fees := trade_value * pc.average_fee * 2
  let taxes := gross_profit * (275 / 1000)
  let net_profit := gross_profit - fees - taxes
  (⟨net_profit, fees, taxes⟩,
    { pc with tax_tally := pc.tax_tally + taxes, fees_tally := pc.fees_tally + fees })

/-- `ProfitCalculator.calculate_gross_profit` (profit_calculator.py lines 28-41):
`((sell_price - buy_price) / buy_price) * 100`. Python raises
`ZeroDivisionError` when `buy_price == 0`, embedded as `none`; every other
input returns the plain quotient. `ArbitrageOpportunity.calculate_gross_profit`
(arbitrage_opportunity.py lines 97-101) is the identical expression. -/
def ProfitCalculator.calculate_gross_profit (buy_price sell_price : ℚ) : Option ℚ :=
  if buy_price = 0 then none
  else some (((sell_price - buy_price) / buy_price) * 100)

/-- Concrete two-venue ledger used by witnesses. -/
def sampleLedger : AccountManager where
  average_fee := 2867 / 1000000
  exchanges := ["kraken", "binance"]
  account_values := fun e => if e = "kraken" then 100 else if e = "binance" then 50 else 0
  tax_tally := 0
  fees_tally := 0
  money_out_tally := 0

/-- Profit calculator configured with a tax rate different from the
hard-coded `0.275`, exposing line 61 of profit_calculator.py. -/
def taxHalfCalculator : ProfitCalculator where
  average_fee := 2867 / 1000000
  tax_rate := 1 / 2
  tax_tally := 0
  fees_tally := 0

/-- One ticker entry of a price snapshot, as built by
`ExchangeManager.extract_prices_from_ticker` (exchange_manager.py lines
95-125): `bid` and `ask` are present together or the entry is absent,
`last` may be missing. The scanner functions below test presence of each
key themselves, so all three fields are optional here. -/
structure PriceData where
  bid : Option ℚ
  ask : Option ℚ
  last : Option ℚ
deriving DecidableEq

/-- A price snapshot: venue → (pair → ticker data), as nested dicts
(association lists keep the dict iteration order). -/
abbrev Snapshot := List (String × List (String × PriceData))

/-- The opportunity dict built by `check_real_time_arbitrage`
(arbitrage_framework.py lines 101-111). `buy_amount`/`sell_amount` hold the
`last` fields (the source indexes `buy_data['last']` directly; kept
optional here since the snapshot may omit it). -/
structure ScanOpportunity where
  buy_exchange : String
  sell_exchange : String
  buy_pair : String
  sell_pair : String
  ask_price : ℚ
  bid_price : ℚ
  gross_profit_percentage : ℚ
  buy_amount : Option ℚ
  sell_amount : Option ℚ
deriving DecidableEq

/-- `ArbitrageFramework.check_real_time_arbitrage` (arbitrage_framework.py
lines 72-115): ordered double loop over venues, skip equal venues, require
the pair on both sides with an `ask` on the buy side and a `bid` on the
sell side, require both prices positive, and emit the opportunity. Note:
the source has no positivity filter on the computed
`gross_profit_percentage` itself. -/
def check_real_time_arbitrage (prices : Snapshot) : List ScanOpportunity :=
  prices.flatMap fun buyEntry =>
    prices.flatMap fun sellEntry =>
      if buyEntry.1 = sellEntry.1 then []
      else
        buyEntry.2.flatMap fun pairEntry =>
          match sellEntry.2.lookup pairEntry.1 with
          | none => []
          | some sell_data =>
            match pairEntry.2.ask, sell_data.bid with
            | some buy_ask, some sell_bid =>
              if 0 < buy_ask ∧ 0 < sell_bid then
                [{ buy_exchange := buyEntry.1, sell_exchange := sellEntry.1,
                   buy_pair := pairEntry.1, sell_pair := pairEntry.1,
                   ask_price := buy_ask, bid_price := sell_bid,
                   gross_profit_percentage := ((sell_bid - buy_ask) / buy_ask) * 100,
                   buy_amount := pairEntry.2.last, sell_amount := sell_data.last }]
              else []
            | _, _ => []

/-- The opportunity dict built by `ArbitrageOpportunity.create_opportunity`
(arbitrage_opportunity.py lines 71-95); `datetime` is the formatted
current time, passed in as `now`. -/
structure Opportunity where
  datetime : String
  buy_exchange : String
  sell_exchange : String
  buy_pair : String
  sell_pair : String
  buy_price : ℚ
  sell_price : ℚ
  gross_profit_percentage : ℚ
deriving DecidableEq

/-- `ArbitrageOpportunity.create_opportunity`. -/
def create_opportunity (now buy_exchange sell_exchange pair : String)
    (buy_price sell_price gross_profit_percentage : ℚ) : Opportunity :=
  ⟨now, buy_exchange, sell_exchange, pair, pair, buy_price, sell_price,
    gross_profit_percentage⟩

/-- The pair loop of `ArbitrageOpportunity.find_arbitrage_opportunities`
(arbitrage_opportunity.py lines 25-34): for each pair listed on the buy
venue and present on the sell venue, read ask/bid (`get_prices_for_pair`),
skip `None` prices (`is_valid_price_pair`), compute the gross profit
(`calculate_gross_profit`, whose division raises — aborting the whole
scan, hence `none` — when the buy price is zero) and keep the opportunity
only when it is strictly positive. -/
def findArbPairs (now buy_exchange sell_exchange : String)
    (smap : List (String × PriceData)) :
    List (String × PriceData) → Option (List Opportunity)
  | [] => some []
  | (pair, buy_data) :: rest =>
    match smap.lookup pair with
    | none => findArbPairs now buy_exchange sell_exchange smap rest
    | some sell_data =>
      match buy_data.ask, sell_data.bid with
      | some buy_price, some sell_price =>
        match ProfitCalculator.calculate_gross_profit buy_price sell_price with
        | none => none
        | some gross_profit_percentage =>
          match findArbPairs now buy_exchange sell_exchange smap rest with
          | none => none
          | some opportunities =>
            if 0 < gross_profit_percentage then
              some (create_opportunity now buy_exchange sell_exchange pair
                buy_price sell_price gross_profit_percentage :: opportunities)
            else some opportunities
      | _, _ => findArbPairs now buy_exchange sell_exchange smap rest

/-- `ArbitrageOpportunity.find_arbitrage_opportunities` (lines 19-36):
`prices[buy_exchange]` / `prices[sell_exchange]` raise `KeyError` when the
venue is missing, embedded as `none`. -/
def find_arbitrage_opportunities (now : String) (prices : Snapshot)
    (buy_exchange sell_exchange : String) : Option (List Opportunity) :=
  match prices.lookup buy_exchange, prices.lookup sell_exchange with
  | some bmap, some smap => findArbPairs now buy_exchange sell_exchange smap bmap
  | _, _ => none

/-- Scenario B snapshot: the same pair with identical bid and ask (100)
on both venues. -/
def identicalPricesSnapshot : Snapshot :=
  [("V1", [("BTC/ETH", ⟨some 100, some 100, some 100⟩)]),
   ("V2", [("BTC/ETH", ⟨some 100, some 100, some 100⟩)])]

/-- `ARBITRAGE_PERCENT = 1.35` (config/config.py line 8). -/
def ARBITRAGE_PERCENT : ℚ := 27 / 20

/-- `COOLDOWN_HOURS = 4` (config/config.py line 23). -/
def COOLDOWN_HOURS : ℚ := 4

/-- `MINIMUM_BALANCES` (config/config.py lines 35-39):
`0.0075 = 3/400`, `0.15 = 3/20`. -/
def MINIMUM_BALANCES : List (String × ℚ) :=
  [("BTC", 3 / 400), ("ETH", 3 / 20), ("LTC", 5)]

/-- The `min_balances` dict written inline in `ArbitrageFramework.execute_trade`
(arbitrage_framework.py lines 216-221). -/
def executeTradeMinBalances : List (String × ℚ) :=
  [("ETH", 3 / 20), ("LTC", 5), ("BTC", 3 / 400), ("SOL", 2)]

/-- Python `dict.get(key, default)`. -/
def dictGetD (d : List (String × ℚ)) (k : String) (default : ℚ) : ℚ :=
  (d.lookup k).getD default

/-- `ArbitrageFramework.calculate_arbitrage_profit` (arbitrage_framework.py
lines 175-190): `((bid_price - ask_price) / ask_price) * 100`. Total over
`ℚ`; the Python division is defined because scanned opportunities carry a
positive `ask_price`. -/
def calculate_arbitrage_profit (o : ScanOpportunity) : ℚ :=
  ((o.bid_price - o.ask_price) / o.ask_price) * 100

/-- The total order realising Python's stable descending sort
(`viable_opportunities.sort(key=..., reverse=True)`, line 134): bigger
profit first, equal profits in original (discovery) position order. A
stable sort is exactly a sort by this lexicographic key. -/
def profitDescLe (a b : ℕ × ScanOpportunity) : Prop :=
  calculate_arbitrage_profit b.2 < calculate_arbitrage_profit a.2
    ∨ (calculate_arbitrage_profit a.2 = calculate_arbitrage_profit b.2 ∧ a.1 ≤ b.1)

instance : DecidableRel profitDescLe := fun a b => by
  unfold profitDescLe
  exact inferInstance

instance : IsTrans (ℕ × ScanOpportunity) profitDescLe where
  trans a b c hab hbc := by
    rcases hab with h1 | h1
    · rcases hbc with h2 | h2
      · exact Or.inl (lt_trans h2 h1)
      · exact Or.inl (h2.1 ▸ h1)
    · rcases hbc with h2 | h2
      · exact Or.inl (h1.1 ▸ h2)
      · exact Or.inr ⟨h1.1.trans h2.1, le_trans h1.2 h2.2⟩

instance : IsTotal (ℕ × ScanOpportunity) profitDescLe where
  total a b := by
    rcases lt_trichotomy (calculate_arbitrage_profit a.2)
      (calculate_arbitrage_profit b.2) with h | h | h
    · exact Or.inr (Or.inl h)
    · rcases le_total a.1 b.1 with h' | h'
      · exact Or.inl (Or.inr ⟨h, h'⟩)
      · exact Or.inr (Or.inr ⟨h.symm, h'⟩)
    · exact Or.inl (Or.inl h)

/-- Python's `list.sort(key=self.calculate_arbitrage_profit, reverse=True)`:
a stable descending sort, realised as sorting the position-tagged list by
the total lexicographic order `profitDescLe`. -/
def sortOpportunities (l : List ScanOpportunity) : List ScanOpportunity :=
  (l.enum.insertionSort profitDescLe).map Prod.snd

/-- The filter + sort of `execute_best_opportunity` (arbitrage_framework.py
lines 128-134): keep opportunities with
`calculate_arbitrage_profit > ARBITRAGE_PERCENT` (passed as `threshold`),
then stable-sort by profit descending. -/
def viable_opportunities (threshold : ℚ) (opportunities : List ScanOpportunity) :
    List ScanOpportunity :=
  sortOpportunities
    (opportunities.filter fun o => decide (threshold < calculate_arbitrage_profit o))

/-- Modelled from the spec: `is_currency_on_cooldown` and
`get_cooldown_currency` are called at arbitrage_framework.py lines 153-154
and 253 but are defined nowhere in the repository. Spec §4.4 defines the
`Cooling` state as a tracker entry whose expiry lies strictly in the
future, keyed by a policy-dependent key (venue or asset, §9); `keyFn` is
that key policy, `tracker` the cooldown mapping, `now` the current time. -/
def is_currency_on_cooldown (keyFn : ScanOpportunity → String)
    (tracker : String → Option ℚ) (now : ℚ) (o : ScanOpportunity) : Bool :=
  match tracker (keyFn o) with
  | none => false
  | some expiry => decide (now < expiry)

/-- The trades-enabled loop of `execute_best_opportunity`
(arbitrage_framework.py lines 152-171), as the list of candidates on which
`execute_trade` is called: cooldown candidates are skipped (`continue`),
the loop breaks after the first success. `cool` abstracts
`is_currency_on_cooldown`, `succ` the success of `execute_trade`. -/
def attemptedOpportunities (cool succ : ScanOpportunity → Bool) :
    List ScanOpportunity → List ScanOpportunity
  | [] => []
  | o :: rest =>
    if cool o then attemptedOpportunities cool succ rest
    else if succ o then [o]
    else o :: attemptedOpportunities cool succ rest

/-- The same loop, returning the opportunity of the one executed trade. -/
def executedOpportunity (cool succ : ScanOpportunity → Bool) :
    List ScanOpportunity → Option ScanOpportunity
  | [] => none
  | o :: rest =>
    if cool o then executedOpportunity cool succ rest
    else if succ o then some o
    else executedOpportunity cool succ rest

/-- `ArbitrageFramework.execute_best_opportunity` (arbitrage_framework.py
lines 117-173): filter and rank, then — only when candidates exist and
trading is enabled — run the attempt loop (in dry-run mode the candidates
are only logged). Returns the executed opportunity, if any. -/
def execute_best_opportunity (disable_trades : Bool) (threshold : ℚ)
    (cool succ : ScanOpportunity → Bool)
    (opportunities : List ScanOpportunity) : Option ScanOpportunity :=
  let viable := viable_opportunities threshold opportunities
  if viable.isEmpty then none
  else if disable_trades then none
  else executedOpportunity cool succ viable

/-- The conclusion of claim C5 about `execute_best_opportunity`, for one
threshold, cooldown predicate, trade-success oracle and scan result. -/
def ExecuteBestSpec (threshold : ℚ) (cool succ : ScanOpportunity → Bool)
    (opportunities : List ScanOpportunity) : Prop :=
  let filtered := opportunities.filter fun o =>
    decide (threshold < calculate_arbitrage_profit o)
  let viable := viable_opportunities threshold opportunities
  let attempted := attemptedOpportunities cool succ viable
  List.Perm viable filtered
    ∧ viable.Pairwise (fun a b =>
        calculate_arbitrage_profit b ≤ calculate_arbitrage_profit a)
    ∧ (filtered.enum.insertionSort profitDescLe).Pairwise (fun a b =>
        calculate_arbitrage_profit a.2 = calculate_arbitrage_profit b.2 → a.1 ≤ b.1)
    ∧ List.Sublist attempted viable
    ∧ (∀ o ∈ attempted, succ o = true → attempted.getLast? = some o)
    ∧ (attempted.filter succ).length ≤ 1
    ∧ attempted.length ≤ filtered.length
    ∧ (∀ o, execute_best_opportunity false threshold cool succ opportunities = some o →
        succ o = true ∧ o ∈ viable)

/-- `'BTC/ETH'.split('/')[0]` (arbitrage_opportunity.py lines 150-151,
228-229 and arbitrage_framework.py lines 209-210): the base currency of a
pair string. -/
def get_currency (pair : String) : String :=
  String.mk (pair.toList.takeWhile fun c => c ≠ '/')

/-- `ArbitrageOpportunity.is_sufficient_balance` (arbitrage_opportunity.py
lines 154-170): both balances must reach `MINIMUM_BALANCES.get(currency, 0)`. -/
def is_sufficient_balance (buy_balance sell_balance : ℚ)
    (buy_currency sell_currency : String) : Bool :=
  decide (dictGetD MINIMUM_BALANCES buy_currency 0 ≤ buy_balance)
    && decide (dictGetD MINIMUM_BALANCES sell_currency 0 ≤ sell_balance)

/-- The balance check of `ArbitrageFramework.execute_trade`
(arbitrage_framework.py line 224), against its inline `min_balances`. -/
def framework_balance_check (buy_balance sell_balance : ℚ)
    (buy_currency sell_currency : String) : Bool :=
  decide (dictGetD executeTradeMinBalances buy_currency 0 ≤ buy_balance)
    && decide (dictGetD executeTradeMinBalances sell_currency 0 ≤ sell_balance)

/-- `ArbitrageFramework.get_balance` (arbitrage_framework.py lines 275-293):
`fetch` is the outcome of `self.exchanges[exchange_name].fetch_balance()['free']`
(`Except.error` for any raised ccxt/lookup error); a missing currency key
(`KeyError` on `balance['free'][currency]`) is caught by the same `except`
and yields 0. -/
def get_balance (fetch : Except String (String → Option ℚ)) (currency : String) : ℚ :=
  match fetch with
  | .error _ => 0
  | .ok free =>
    match free currency with
    | none => 0
    | some v => v

/-- Structured trade events, standing for the source's per-outcome log
lines: `"Insufficient balance for trade execution."`,
`"Buy order executed"`, `"Sell order executed"`,
`"Trade execution failed: {e}"`. -/
inductive TradeEvent where
  | insufficientBalance
  | buyOrderExecuted
  | sellOrderExecuted
  | executionFailed (message : String)
deriving DecidableEq

/-- The keyword arguments of `create_order` (arbitrage_opportunity.py
lines 193-208). -/
structure OrderRequest where
  symbol : String
  order_type : String
  side : String
  amount : ℚ
  price : ℚ
deriving DecidableEq

/-- Outcome of one `execute_trade`/`execute_orders` call: Python return
value, cooldown dict, the (never touched) account ledger, the log events,
and the orders submitted to the gateways. -/
structure TradeResult where
  success : Bool
  cooldown_tracker : String → Option ℚ
  ledger : AccountManager
  events : List TradeEvent
  submitted : List OrderRequest

/-- `ArbitrageOpportunity.update_cooldown_tracker` (arbitrage_opportunity.py
lines 218-233): the cooldown lands on the buy currency when the traded
amount equals the buy balance, else on the sell currency; expiry is
`time.time() + 3600 * cooldown_hours`. -/
def update_cooldown_tracker (tracker : String → Option ℚ)
    (buy_pair sell_pair : String) (trade_amount buy_balance : ℚ)
    (now cooldown_hours : ℚ) : String → Option ℚ :=
  let buy_currency := get_currency buy_pair
  let sell_currency := get_currency sell_pair
  let cooldown_currency := if trade_amount = buy_balance then buy_currency else sell_currency
  Function.update tracker cooldown_currency (some (now + 3600 * cooldown_hours))

/-- `ArbitrageOpportunity.execute_orders` (arbitrage_opportunity.py lines
172-216): trade `min(buy_balance, sell_balance)`, submit the buy then the
sell market order, update the cooldown tracker only after both succeed.
`gateway venue req` abstracts `exchanges[venue].create_order(**req)`; an
`Except.error` is the raised ccxt error that the source's `except` catches
(logging the failure and returning `False`). The `AccountManager` is
threaded through untouched: no statement of the source's trade path
references it. -/
def execute_orders (gateway : String → OrderRequest → Except String Unit)
    (buy_exchange sell_exchange buy_pair sell_pair : String)
    (buy_price sell_price buy_balance sell_balance : ℚ)
    (tracker : String → Option ℚ) (ledger : AccountManager)
    (now cooldown_hours : ℚ) : TradeResult :=
  let trade_amount := min buy_balance sell_balance
  let buyReq : OrderRequest := ⟨buy_pair, "market", "buy", trade_amount, buy_price⟩
  match gateway buy_exchange buyReq with
  | .error e => ⟨false, tracker, ledger, [.executionFailed e], [buyReq]⟩
  | .ok _ =>
    let sellReq : OrderRequest := ⟨sell_pair, "market", "sell", trade_amount, sell_price⟩
    match gateway sell_exchange sellReq with
    | .error e =>
        ⟨false, tracker, ledger, [.buyOrderExecuted, .executionFailed e],
          [buyReq, sellReq]⟩
    | .ok _ =>
        ⟨true,
          update_cooldown_tracker tracker buy_pair sell_pair trade_amount
            buy_balance now cooldown_hours,
          ledger, [.buyOrderExecuted, .sellOrderExecuted], [buyReq, sellReq]⟩

/-- `ArbitrageOpportunity.execute_trade` (arbitrage_opportunity.py lines
103-119): extract the currencies, check balances, and run `execute_orders`.
The balances come from `self.get_balance`, which is not defined on the
class in the source; per the spec's gateway interface (§6 `fetchBalance`)
their values are taken here as inputs. -/
def execute_trade (gateway : String → OrderRequest → Except String Unit)
    (opportunity : Opportunity) (buy_balance sell_balance : ℚ)
    (tracker : String → Option ℚ) (ledger : AccountManager)
    (now cooldown_hours : ℚ) : TradeResult :=
  let buy_currency := get_currency opportunity.buy_pair
  let sell_currency := get_currency opportunity.sell_pair
  if is_sufficient_balance buy_balance sell_balance buy_currency sell_currency then
    execute_orders gateway opportunity.buy_exchange opportunity.sell_exchange
      opportunity.buy_pair opportunity.sell_pair opportunity.buy_price
      opportunity.sell_price buy_balance sell_balance tracker ledger now cooldown_hours
  else ⟨false, tracker, ledger, [.insufficientBalance], []⟩

/-- Scenario-A style scan output used by witnesses: two opportunities,
4.21% and 5%, discovered in that order. -/
def demoOpportunities : List ScanOpportunity :=
  [⟨"V2", "V1", "BTC/USD", "BTC/USD", 95, 99, 400 / 95, some 1, some 1⟩,
   ⟨"V1", "V2", "BTC/USD", "BTC/USD", 100, 105, 5, some 1, some 1⟩]

/-- One above-threshold opportunity used by the cooldown witness. -/
def coolDemoOpp : ScanOpportunity :=
  ⟨"V1", "V2", "BTC/ETH", "BTC/ETH", 100, 105, 5, some 1, some 1⟩

/-- A cooldown dict holding one expiry, keyed by venue `V1`. -/
def demoTracker : String → Option ℚ := fun k => if k = "V1" then some 5 else none

/-- The conclusion of claim C9 about `execute_trade`: every submitted
order's amount is `min(buy_balance, sell_balance)`, and on success the
cooldown lands on a currency whose balance equals that minimum, with
expiry `now + 3600 * cooldown_hours`. -/
def TradeAmountSpec (gateway : String → OrderRequest → Except String Unit)
    (opportunity : Opportunity) (buy_balance sell_balance : ℚ)
    (tracker : String → Option ℚ) (ledger : AccountManager)
    (now cooldown_hours : ℚ) : Prop :=
  let r := execute_trade gateway opportunity buy_balance sell_balance tracker
    ledger now cooldown_hours
  (∀ req ∈ r.submitted, req.amount = min buy_balance sell_balance)
    ∧ (r.success = true →
        ∃ c, ((c = get_currency opportunity.buy_pair
                ∧ buy_balance = min buy_balance sell_balance)
            ∨ (c = get_currency opportunity.sell_pair
                ∧ sell_balance = min buy_balance sell_balance))
          ∧ r.cooldown_tracker c = some (now + 3600 * cooldown_hours))

/-- The conclusion of claim C6 for a trade result `r` produced from
cooldown state `tracker` and ledger `ledger` when the sell leg raised
`e` after the buy leg succeeded: the call reports failure, neither the
cooldown tracker nor the ledger changed, and the emitted events carry an
execution failure distinct from the clean insufficient-balance outcome. -/
def PartialLegFailureSpec (r : TradeResult) (tracker : String → Option ℚ)
    (ledger : AccountManager) (e : String) : Prop :=
  r.success = false
    ∧ r.cooldown_tracker = tracker
    ∧ r.ledger = ledger
    ∧ r.events = [TradeEvent.buyOrderExecuted, TradeEvent.executionFailed e]
    ∧ r.events ≠ [TradeEvent.insufficientBalance]
    ∧ TradeEvent.executionFailed e ≠ TradeEvent.insufficientBalance

/-- A concrete opportunity for the trade witnesses. -/
def demoTradeOpp : Opportunity :=
  ⟨"t", "V1", "V2", "BTC/ETH", "BTC/ETH", 100, 105, 5⟩

/-- A gateway on which every order succeeds. -/
def allOkGateway : String → OrderRequest → Except String Unit :=
  fun _ _ => Except.ok ()

/-- A gateway on which the buy leg succeeds and the sell leg raises. -/
def sellFailGateway : String → OrderRequest → Except String Unit :=
  fun _ req => if req.side = "buy" then Except.ok () else Except.error "venue error"

-- ------------------------------------------------------------------
-- Helper lemmas
-- ------------------------------------------------------------------

/-- Summing a single-point mass over a duplicate-free list containing the
point gives the mass. -/
theorem sum_map_ite_point (l : List String) (hnd : l.Nodup) (a : String)
    (ha : a ∈ l) (c : ℚ) : (l.map fun e => if e = a then c else 0).sum = c := by
  induction l with
  | nil => cases ha
  | cons x xs ih =>
    rcases List.nodup_cons.mp hnd with ⟨hx, hxs⟩
    rcases List.mem_cons.mp ha with h | h
    · subst h
      have hzero : (xs.map fun e => if e = a then c else 0).sum = 0 := by
        apply List.sum_eq_zero
        intro y hy
        rcases List.mem_map.mp hy with ⟨e, he, rfl⟩
        have hea : e ≠ a := fun hEq => hx (hEq ▸ he)
        simp [hea]
      simp [hzero]
    · have hxa : x ≠ a := fun hEq => hx (hEq ▸ h)
      simp [hxa, ih hxs h]

/-- Rebalancing leaves the ledger total unchanged (used by several claims). -/
theorem totalValue_rebalance (m : AccountManager) (hne : m.exchanges ≠ []) :
    m.rebalance_accounts.totalValue = m.totalValue := by
  have hlen : (m.exchanges.length : ℚ) ≠ 0 := by
    exact_mod_cast fun h => hne (List.length_eq_zero.mp h)
  have hmap : (m.exchanges.map fun e =>
      if e ∈ m.exchanges then m.totalValue / (m.exchanges.length : ℚ)
      else m.account_values e)
      = m.exchanges.map fun _ => m.totalValue / (m.exchanges.length : ℚ) := by
    apply List.map_congr_left
    intro a ha
    simp [ha]
  show (m.exchanges.map fun e =>
      if e ∈ m.exchanges then m.totalValue / (m.exchanges.length : ℚ)
      else m.account_values e).sum = m.totalValue
  rw [hmap, List.map_const', List.sum_replicate, nsmul_eq_mul]
  field_simp

/-- Definitional equation for the rebalanced per-venue values. -/
theorem rebalance_values_eq (m : AccountManager) (e : String) :
    m.rebalance_accounts.account_values e
      = if e ∈ m.exchanges then m.totalValue / (m.exchanges.length : ℚ)
        else m.account_values e := rfl

/-- Rebalancing does not change the venue list. -/
theorem rebalance_exchanges (m : AccountManager) :
    m.rebalance_accounts.exchanges = m.exchanges := rfl

/-- C1: total ledger capital is conserved by `rebalance_accounts`, and
`update_account_values buy sell trade_value net_profit` changes the total
by exactly `net_profit`, for every ledger whose venue list is nonempty
(duplicate-free, as Python dict keys are) and contains both venues. -/
theorem ledger_total_conserved (m : AccountManager)
    (buy_exchange sell_exchange : String) (trade_value net_profit : ℚ)
    (hne : m.exchanges ≠ []) (hnd : m.exchanges.Nodup)
    (hb : buy_exchange ∈ m.exchanges) (hs : sell_exchange ∈ m.exchanges) :
    m.rebalance_accounts.totalValue = m.totalValue ∧
    (m.update_account_values buy_exchange sell_exchange trade_value net_profit).totalValue
      = m.totalValue + net_profit := by
  refine ⟨totalValue_rebalance m hne, ?_⟩
  have hpt : ∀ e, m.postTradeValues buy_exchange sell_exchange trade_value net_profit e
      = m.account_values e
        + ((if e = sell_exchange then trade_value + net_profit else 0)
            + (if e = buy_exchange then -trade_value else 0)) := by
    intro e
    unfold AccountManager.postTradeValues
    by_cases h1 : e = sell_exchange
    · subst h1
      by_cases h2 : e = buy_exchange
      · subst h2
        simp [Function.update_apply]
        try ring
      · simp [Function.update_apply, h2]
        try ring
    · by_cases h2 : e = buy_exchange
      · subst h2
        simp [Function.update_apply, h1]
        try ring
      · simp [Function.update_apply, h1, h2]
  show AccountManager.totalValue
      (AccountManager.rebalance_accounts
        { m with account_values :=
            m.postTradeValues buy_exchange sell_exchange trade_value net_profit })
      = m.totalValue + net_profit
  rw [totalValue_rebalance
    { m with account_values :=
        m.postTradeValues buy_exchange sell_exchange trade_value net_profit }
    hne]
  show (m.exchanges.map
      (m.postTradeValues buy_exchange sell_exchange trade_value net_profit)).sum
      = m.totalValue + net_profit
  rw [List.map_congr_left fun e _ => hpt e]
  rw [List.sum_map_add, List.sum_map_add,
    sum_map_ite_point m.exchanges hnd sell_exchange hs,
    sum_map_ite_point m.exchanges hnd buy_exchange hb]
  unfold AccountManager.totalValue
  ring

/-- C1 witness: the conservation law at a concrete two-venue ledger. -/
theorem ledger_total_conserved_witness :
    sampleLedger.rebalance_accounts.totalValue = sampleLedger.totalValue ∧
    (sampleLedger.update_account_values "kraken" "binance" 30 5).totalValue
      = sampleLedger.totalValue + 5 :=
  ledger_total_conserved sampleLedger "kraken" "binance" 30 5
    (by decide) (by decide) (by decide) (by decide)

/-- C8: `rebalance_accounts` is idempotent on every per-venue capital value,
for every ledger with at least one venue. -/
theorem rebalance_idempotent (m : AccountManager) (hne : m.exchanges ≠ [])
    (e : String) :
    m.rebalance_accounts.rebalance_accounts.account_values e
      = m.rebalance_accounts.account_values e := by
  have htot := totalValue_rebalance m hne
  have h1 := rebalance_values_eq m.rebalance_accounts e
  rw [rebalance_exchanges, htot] at h1
  rw [h1]
  by_cases hmem : e ∈ m.exchanges
  · rw [if_pos hmem, rebalance_values_eq m e, if_pos hmem]
  · rw [if_neg hmem]

/-- C8 witness: idempotence at the concrete two-venue ledger. -/
theorem rebalance_idempotent_witness :
    sampleLedger.rebalance_accounts.rebalance_accounts.account_values "kraken"
      = sampleLedger.rebalance_accounts.account_values "kraken" :=
  rebalance_idempotent sampleLedger (by decide) "kraken"

/-- C3: profit_calculator.py line 61 multiplies the gross profit by the
literal `0.275`, not by the configured `tax_rate`. With `tax_rate = 0.5`,
`gross_profit = 100`, `trade_value = 0` the code yields `taxes = 27.5`,
not `100 × 0.5 = 50`; the tax tally is incremented by the hardcoded value. -/
theorem net_profit_uses_hardcoded_tax_rate :
    (taxHalfCalculator.calculate_net_profit 100 0).1.taxes = 55 / 2 ∧
    (taxHalfCalculator.calculate_net_profit 100 0).1.taxes
      ≠ 100 * taxHalfCalculator.tax_rate ∧
    (taxHalfCalculator.calculate_net_profit 100 0).1.net_profit = 100 - 0 - 55 / 2 ∧
    (taxHalfCalculator.calculate_net_profit 100 0).2.tax_tally = 55 / 2 := by
  refine ⟨?_, ?_, ?_, ?_⟩ <;>
    norm_num [ProfitCalculator.calculate_net_profit, taxHalfCalculator]

/-- C7 counterexample: at `buy_price = -100 ≤ 0` the source neither fails
nor returns a sentinel — it returns the plain percentage `-150`. -/
theorem gross_profit_negative_buy_counterexample :
    ProfitCalculator.calculate_gross_profit (-100) 50 = some (-150)
      ∧ ((-100 : ℚ) < 0) := by
  constructor
  · norm_num [ProfitCalculator.calculate_gross_profit]
  · norm_num

/-- C7 (amended): for `buy_price > 0` the gross profit is
`(sell−buy)/buy×100`, zero at equal prices and negative when
`sell < buy`; the operation fails exactly when `buy_price = 0`
(Python `ZeroDivisionError`), not on every nonpositive buy price. -/
theorem gross_profit_formula (buy_price sell_price : ℚ) :
    (0 < buy_price →
      ProfitCalculator.calculate_gross_profit buy_price sell_price
          = some (((sell_price - buy_price) / buy_price) * 100)
        ∧ (sell_price = buy_price →
            ProfitCalculator.calculate_gross_profit buy_price sell_price = some 0)
        ∧ (sell_price < buy_price → ∀ r,
            ProfitCalculator.calculate_gross_profit buy_price sell_price = some r →
              r < 0))
    ∧ (ProfitCalculator.calculate_gross_profit buy_price sell_price = none
        ↔ buy_price = 0) := by
  unfold ProfitCalculator.calculate_gross_profit
  constructor
  · intro hpos
    have hne : buy_price ≠ 0 := ne_of_gt hpos
    rw [if_neg hne]
    refine ⟨rfl, ?_, ?_⟩
    · intro hEq
      rw [hEq]
      norm_num
    · intro hlt r hr
      have hr' : ((sell_price - buy_price) / buy_price) * 100 = r :=
        Option.some.inj hr
      have hq : (sell_price - buy_price) / buy_price < 0 :=
        div_neg_of_neg_of_pos (sub_neg.mpr hlt) hpos
      have : ((sell_price - buy_price) / buy_price) * 100 < 0 :=
        mul_neg_of_neg_of_pos hq (by norm_num)
      exact hr' ▸ this
  · constructor
    · intro h
      by_contra hne
      rw [if_neg hne] at h
      exact Option.noConfusion h
    · intro h
      rw [if_pos h]

/-- C7 witness: equal prices with a positive buy price give gross profit 0. -/
theorem gross_profit_formula_witness :
    ProfitCalculator.calculate_gross_profit 2 2 = some 0 :=
  ((gross_profit_formula 2 2).1 (by norm_num)).2.1 rfl

/-- Every opportunity the pair loop keeps has strictly positive gross
profit percentage. -/
theorem findArbPairs_pos (now buy_exchange sell_exchange : String)
    (smap : List (String × PriceData)) (bmap : List (String × PriceData))
    (l : List Opportunity)
    (h : findArbPairs now buy_exchange sell_exchange smap bmap = some l) :
    ∀ o ∈ l, 0 < o.gross_profit_percentage := by
  induction bmap generalizing l with
  | nil =>
    simp only [findArbPairs, Option.some.injEq] at h
    subst h
    intro o ho
    cases ho
  | cons hd rest ih =>
    obtain ⟨pair, buy_data⟩ := hd
    simp only [findArbPairs] at h
    split at h
    · exact ih l h
    · split at h
      · split at h
        · exact Option.noConfusion h
        · split at h
          · exact Option.noConfusion h
          · rename_i opportunities hrec
            split at h
            · rename_i hpos
              obtain rfl := Option.some.inj h
              intro o ho
              rcases List.mem_cons.mp ho with rfl | hmem
              · exact hpos
              · exact ih opportunities hrec o hmem
            · obtain rfl := Option.some.inj h
              exact ih opportunities hrec
      · exact ih l h

/-- C2 (amended): the strictly-positive scan-time filter belongs to
`ArbitrageOpportunity.find_arbitrage_opportunities`: every opportunity it
returns has `gross_profit_percentage > 0`, and on a snapshot whose pair
has identical bid and ask on both venues it returns no opportunities.
(The framework scanner `check_real_time_arbitrage` has no such filter —
see the counterexample.) -/
theorem find_arbitrage_strictly_positive_filter :
    (∀ (now : String) (prices : Snapshot) (buy_exchange sell_exchange : String)
        (l : List Opportunity),
      find_arbitrage_opportunities now prices buy_exchange sell_exchange = some l →
        ∀ o ∈ l, 0 < o.gross_profit_percentage)
    ∧ find_arbitrage_opportunities "t" identicalPricesSnapshot "V1" "V2" = some [] := by
  constructor
  · intro now prices buy_exchange sell_exchange l h o ho
    unfold find_arbitrage_opportunities at h
    split at h
    · exact findArbPairs_pos _ _ _ _ _ _ h o ho
    · exact Option.noConfusion h
  · norm_num [find_arbitrage_opportunities, identicalPricesSnapshot, findArbPairs,
      ProfitCalculator.calculate_gross_profit, List.lookup,
      show (("V2" : String) == "V1") = false from by decide]

/-- C2 counterexample: on the identical-price snapshot the scanner the
main loop actually uses, `check_real_time_arbitrage`, emits two
opportunities, both with gross profit percentage exactly 0 — not zero
opportunities, and not strictly positive ones. -/
theorem scan_emits_zero_profit_counterexample :
    (check_real_time_arbitrage identicalPricesSnapshot).map
        (fun o => o.gross_profit_percentage) = [0, 0]
      ∧ check_real_time_arbitrage identicalPricesSnapshot ≠ [] := by
  constructor
  · norm_num [check_real_time_arbitrage, identicalPricesSnapshot, List.lookup,
      show ("V1" : String) ≠ "V2" from by decide,
      show ("V2" : String) ≠ "V1" from by decide]
  · norm_num [check_real_time_arbitrage, identicalPricesSnapshot, List.lookup,
      show ("V1" : String) ≠ "V2" from by decide,
      show ("V2" : String) ≠ "V1" from by decide]
    exact List.cons_ne_nil _ _

/-- The attempt loop only ever touches candidates of its input list, in
their ranked order. -/
theorem attempted_sublist (cool succ : ScanOpportunity → Bool)
    (l : List ScanOpportunity) :
    List.Sublist (attemptedOpportunities cool succ l) l := by
  induction l with
  | nil => exact List.Sublist.refl []
  | cons o rest ih =>
    simp only [attemptedOpportunities]
    by_cases h1 : cool o
    · rw [if_pos h1]
      exact ih.cons o
    · rw [if_neg h1]
      by_cases h2 : succ o
      · rw [if_pos h2]
        exact (List.nil_sublist rest).cons₂ o
      · rw [if_neg h2]
        exact ih.cons₂ o

/-- A successful attempt is the last one: the loop breaks on success. -/
theorem attempted_last_success (cool succ : ScanOpportunity → Bool)
    (l : List ScanOpportunity) :
    ∀ o ∈ attemptedOpportunities cool succ l, succ o = true →
      (attemptedOpportunities cool succ l).getLast? = some o := by
  induction l with
  | nil =>
    intro o ho
    cases ho
  | cons a rest ih =>
    simp only [attemptedOpportunities]
    by_cases h1 : cool a
    · rw [if_pos h1]
      exact ih
    · rw [if_neg h1]
      by_cases h2 : succ a
      · rw [if_pos h2]
        intro o ho _
        rcases List.mem_singleton.mp ho with rfl
        rfl
      · rw [if_neg h2]
        intro o ho hsucc
        rcases List.mem_cons.mp ho with rfl | hmem
        · exact absurd hsucc (by simp [h2])
        · have htail := ih o hmem hsucc
          have hne : attemptedOpportunities cool succ rest ≠ [] :=
            List.ne_nil_of_mem hmem
          rcases hx : attemptedOpportunities cool succ rest with _ | ⟨b, t⟩
          · exact absurd hx hne
          · rw [hx] at htail
            rw [List.getLast?_cons_cons]
            exact htail

/-- At most one attempted candidate satisfies the success oracle. -/
theorem attempted_succ_count (cool succ : ScanOpportunity → Bool)
    (l : List ScanOpportunity) :
    ((attemptedOpportunities cool succ l).filter succ).length ≤ 1 := by
  induction l with
  | nil => simp [attemptedOpportunities]
  | cons o rest ih =>
    simp only [attemptedOpportunities]
    by_cases h1 : cool o
    · rw [if_pos h1]
      exact ih
    · rw [if_neg h1]
      by_cases h2 : succ o
      · rw [if_pos h2]
        simp [h2]
      · rw [if_neg h2]
        simp only [List.filter_cons, h2]
        exact ih

/-- What it takes for the loop to execute a candidate: it is in the list,
not on cooldown, and the trade succeeded. -/
theorem executedOpportunity_spec (cool succ : ScanOpportunity → Bool)
    (l : List ScanOpportunity) (o : ScanOpportunity)
    (h : executedOpportunity cool succ l = some o) :
    cool o = false ∧ succ o = true ∧ o ∈ l := by
  induction l with
  | nil => exact Option.noConfusion h
  | cons a rest ih =>
    simp only [executedOpportunity] at h
    by_cases h1 : cool a
    · rw [if_pos h1] at h
      obtain ⟨hc, hs, hm⟩ := ih h
      exact ⟨hc, hs, List.mem_cons_of_mem a hm⟩
    · rw [if_neg h1] at h
      by_cases h2 : succ a
      · rw [if_pos h2] at h
        obtain rfl := Option.some.inj h
        exact ⟨by simp [h1], h2, List.mem_cons_self a rest⟩
      · rw [if_neg h2] at h
        obtain ⟨hc, hs, hm⟩ := ih h
        exact ⟨hc, hs, List.mem_cons_of_mem a hm⟩

/-- C5: `execute_best_opportunity` keeps exactly the scanned opportunities
whose profit is strictly above the threshold, ranks them descending by
profit with ties in discovery order (the sorted position-tagged list is
pairwise ordered), attempts candidates as a subsequence of that ranking,
stops at the first success, executes at most one trade, and makes at most
as many attempts as there are filtered candidates. -/
theorem execute_best_spec (threshold : ℚ) (cool succ : ScanOpportunity → Bool)
    (opportunities : List ScanOpportunity)
    (hask : ∀ o ∈ opportunities, 0 < o.ask_price) :
    ExecuteBestSpec threshold cool succ opportunities := by
  unfold ExecuteBestSpec
  have hviable : viable_opportunities threshold opportunities
      = (((opportunities.filter fun o =>
          decide (threshold < calculate_arbitrage_profit o)).enum.insertionSort
            profitDescLe).map Prod.snd) := rfl
  have hsorted := List.sorted_insertionSort profitDescLe
    (opportunities.filter fun o => decide (threshold < calculate_arbitrage_profit o)).enum
  have hperm := List.perm_insertionSort profitDescLe
    (opportunities.filter fun o => decide (threshold < calculate_arbitrage_profit o)).enum
  refine ⟨?_, ?_, ?_, ?_, ?_, ?_, ?_, ?_⟩
  · rw [hviable]
    have h := hperm.map Prod.snd
    rwa [List.enum_map_snd] at h
  · rw [hviable]
    exact List.Pairwise.map Prod.snd
      (fun a b hab => by
        rcases hab with h | h
        · exact le_of_lt h
        · exact le_of_eq h.1.symm)
      hsorted
  · exact hsorted.imp (fun {a b} hab heq => by
      rcases hab with h | h
      · exact absurd heq (ne_of_gt h)
      · exact h.2)
  · exact attempted_sublist cool succ _
  · exact attempted_last_success cool succ _
  · exact attempted_succ_count cool succ _
  · have h1 := (attempted_sublist cool succ
      (viable_opportunities threshold opportunities)).length_le
    have h2 : (viable_opportunities threshold opportunities).length
        = (opportunities.filter fun o =>
            decide (threshold < calculate_arbitrage_profit o)).length := by
      rw [hviable, List.length_map, hperm.length_eq, List.enum_length]
    exact h2 ▸ h1
  · intro o ho
    unfold execute_best_opportunity at ho
    by_cases hE : (viable_opportunities threshold opportunities).isEmpty
    · rw [if_pos hE] at ho
      exact Option.noConfusion ho
    · rw [if_neg hE] at ho
      rw [if_neg Bool.false_ne_true] at ho
      obtain ⟨_, hs, hm⟩ := executedOpportunity_spec cool succ _ o ho
      exact ⟨hs, hm⟩

/-- C5 witness: Scenario A's two opportunities, no cooldown, trades
succeeding. -/
theorem execute_best_spec_witness :
    ExecuteBestSpec ARBITRAGE_PERCENT (fun _ => false) (fun _ => true)
      demoOpportunities :=
  execute_best_spec ARBITRAGE_PERCENT (fun _ => false) (fun _ => true)
    demoOpportunities
    (by
      intro o ho
      simp only [demoOpportunities, List.mem_cons, List.not_mem_nil, or_false] at ho
      rcases ho with rfl | rfl <;> norm_num)

/-- C4: an opportunity whose cooldown-tracker entry has not yet expired
(`Cooling`: `now < expiry`) is never the one executed by
`execute_best_opportunity`, whatever its profit percentage: if the
executed opportunity's key has a tracker entry, that entry has lapsed. -/
theorem cooling_never_selected (keyFn : ScanOpportunity → String)
    (tracker : String → Option ℚ) (now : ℚ) (succ : ScanOpportunity → Bool)
    (disable_trades : Bool) (threshold : ℚ)
    (opportunities : List ScanOpportunity) (o : ScanOpportunity) (expiry : ℚ)
    (hexec : execute_best_opportunity disable_trades threshold
        (is_currency_on_cooldown keyFn tracker now) succ opportunities = some o)
    (hentry : tracker (keyFn o) = some expiry) :
    expiry ≤ now := by
  unfold execute_best_opportunity at hexec
  by_cases hE : (viable_opportunities threshold opportunities).isEmpty
  · rw [if_pos hE] at hexec
    exact Option.noConfusion hexec
  · rw [if_neg hE] at hexec
    by_cases hD : disable_trades = true
    · rw [if_pos hD] at hexec
      exact Option.noConfusion hexec
    · rw [if_neg hD] at hexec
      obtain ⟨hc, _, _⟩ := executedOpportunity_spec _ succ _ o hexec
      simp only [is_currency_on_cooldown, hentry, decide_eq_false_iff_not,
        not_lt] at hc
      exact hc

/-- `execute_orders` when the buy leg raises: nothing beyond the buy order
was submitted, state unchanged, failure reported. -/
theorem execute_orders_buy_fail
    (gateway : String → OrderRequest → Except String Unit)
    (buy_exchange sell_exchange buy_pair sell_pair : String)
    (buy_price sell_price buy_balance sell_balance : ℚ)
    (tracker : String → Option ℚ) (ledger : AccountManager)
    (now cooldown_hours : ℚ) (e : String)
    (hbuy : gateway buy_exchange
        ⟨buy_pair, "market", "buy", min buy_balance sell_balance, buy_price⟩
      = Except.error e) :
    execute_orders gateway buy_exchange sell_exchange buy_pair sell_pair
        buy_price sell_price buy_balance sell_balance tracker ledger now cooldown_hours
      = ⟨false, tracker, ledger, [TradeEvent.executionFailed e],
          [⟨buy_pair, "market", "buy", min buy_balance sell_balance, buy_price⟩]⟩ := by
  simp only [execute_orders]
  rw [hbuy]

/-- `execute_orders` when the buy leg succeeds and the sell leg raises:
both orders were submitted, the tracker and ledger are unchanged, failure
reported after the buy-executed event. -/
theorem execute_orders_sell_fail
    (gateway : String → OrderRequest → Except String Unit)
    (buy_exchange sell_exchange buy_pair sell_pair : String)
    (buy_price sell_price buy_balance sell_balance : ℚ)
    (tracker : String → Option ℚ) (ledger : AccountManager)
    (now cooldown_hours : ℚ) (e : String)
    (hbuy : gateway buy_exchange
        ⟨buy_pair, "market", "buy", min buy_balance sell_balance, buy_price⟩
      = Except.ok ())
    (hsell : gateway sell_exchange
        ⟨sell_pair, "market", "sell", min buy_balance sell_balance, sell_price⟩
      = Except.error e) :
    execute_orders gateway buy_exchange sell_exchange buy_pair sell_pair
        buy_price sell_price buy_balance sell_balance tracker ledger now cooldown_hours
      = ⟨false, tracker, ledger,
          [TradeEvent.buyOrderExecuted, TradeEvent.executionFailed e],
          [⟨buy_pair, "market", "buy", min buy_balance sell_balance, buy_price⟩,
           ⟨sell_pair, "market", "sell", min buy_balance sell_balance, sell_price⟩]⟩ := by
  simp only [execute_orders]
  rw [hbuy, hsell]

/-- `execute_orders` when both legs succeed: both orders submitted, the
cooldown tracker updated, success reported. -/
theorem execute_orders_both_ok
    (gateway : String → OrderRequest → Except String Unit)
    (buy_exchange sell_exchange buy_pair sell_pair : String)
    (buy_price sell_price buy_balance sell_balance : ℚ)
    (tracker : String → Option ℚ) (ledger : AccountManager)
    (now cooldown_hours : ℚ)
    (hbuy : gateway buy_exchange
        ⟨buy_pair, "market", "buy", min buy_balance sell_balance, buy_price⟩
      = Except.ok ())
    (hsell : gateway sell_exchange
        ⟨sell_pair, "market", "sell", min buy_balance sell_balance, sell_price⟩
      = Except.ok ()) :
    execute_orders gateway buy_exchange sell_exchange buy_pair sell_pair
        buy_price sell_price buy_balance sell_balance tracker ledger now cooldown_hours
      = ⟨true,
          update_cooldown_tracker tracker buy_pair sell_pair
            (min buy_balance sell_balance) buy_balance now cooldown_hours,
          ledger, [TradeEvent.buyOrderExecuted, TradeEvent.sellOrderExecuted],
          [⟨buy_pair, "market", "buy", min buy_balance sell_balance, buy_price⟩,
           ⟨sell_pair, "market", "sell", min buy_balance sell_balance, sell_price⟩]⟩ := by
  simp only [execute_orders]
  rw [hbuy, hsell]

/-- `execute_trade` with a passing balance check is `execute_orders`. -/
theorem execute_trade_of_sufficient
    (gateway : String → OrderRequest → Except String Unit)
    (opportunity : Opportunity) (buy_balance sell_balance : ℚ)
    (tracker : String → Option ℚ) (ledger : AccountManager)
    (now cooldown_hours : ℚ)
    (hsuff : is_sufficient_balance buy_balance sell_balance
        (get_currency opportunity.buy_pair)
        (get_currency opportunity.sell_pair) = true) :
    execute_trade gateway opportunity buy_balance sell_balance tracker ledger
        now cooldown_hours
      = execute_orders gateway opportunity.buy_exchange opportunity.sell_exchange
          opportunity.buy_pair opportunity.sell_pair opportunity.buy_price
          opportunity.sell_price buy_balance sell_balance tracker ledger
          now cooldown_hours := by
  unfold execute_trade
  rw [if_pos hsuff]

/-- C9: when the balance check passes, both submitted legs carry amount
`min(buy_balance, sell_balance)`; when both orders succeed the cooldown is
applied to a currency whose balance equals that minimum, with expiry
`now + 3600 * cooldown_hours`. -/
theorem trade_amount_and_cooldown
    (gateway : String → OrderRequest → Except String Unit)
    (opportunity : Opportunity) (buy_balance sell_balance : ℚ)
    (tracker : String → Option ℚ) (ledger : AccountManager)
    (now cooldown_hours : ℚ)
    (hsuff : is_sufficient_balance buy_balance sell_balance
        (get_currency opportunity.buy_pair)
        (get_currency opportunity.sell_pair) = true) :
    TradeAmountSpec gateway opportunity buy_balance sell_balance tracker
      ledger now cooldown_hours := by
  unfold TradeAmountSpec
  rw [execute_trade_of_sufficient gateway opportunity buy_balance sell_balance
    tracker ledger now cooldown_hours hsuff]
  rcases hbuy : gateway opportunity.buy_exchange
      ⟨opportunity.buy_pair, "market", "buy", min buy_balance sell_balance,
        opportunity.buy_price⟩ with e | u
  · rw [execute_orders_buy_fail gateway _ _ _ _ _ _ _ _ tracker ledger _ _ e hbuy]
    constructor
    · intro req hreq
      rcases List.mem_singleton.mp hreq with rfl
      rfl
    · intro hsucc
      exact absurd hsucc (by simp)
  · obtain rfl : u = () := rfl
    rcases hsell : gateway opportunity.sell_exchange
        ⟨opportunity.sell_pair, "market", "sell", min buy_balance sell_balance,
          opportunity.sell_price⟩ with e | u'
    · rw [execute_orders_sell_fail gateway _ _ _ _ _ _ _ _ tracker ledger _ _ e
        hbuy hsell]
      constructor
      · intro req hreq
        rcases List.mem_cons.mp hreq with rfl | hreq'
        · rfl
        · rcases List.mem_singleton.mp hreq' with rfl
          rfl
      · intro hsucc
        exact absurd hsucc (by simp)
    · obtain rfl : u' = () := rfl
      rw [execute_orders_both_ok gateway _ _ _ _ _ _ _ _ tracker ledger _ _
        hbuy hsell]
      constructor
      · intro req hreq
        rcases List.mem_cons.mp hreq with rfl | hreq'
        · rfl
        · rcases List.mem_singleton.mp hreq' with rfl
          rfl
      · intro _
        refine ⟨if min buy_balance sell_balance = buy_balance
            then get_currency opportunity.buy_pair
            else get_currency opportunity.sell_pair, ?_, ?_⟩
        · by_cases hmb : min buy_balance sell_balance = buy_balance
          · rw [if_pos hmb]
            exact Or.inl ⟨rfl, hmb.symm⟩
          · rw [if_neg hmb]
            refine Or.inr ⟨rfl, ?_⟩
            rcases min_choice buy_balance sell_balance with h | h
            · exact absurd h hmb
            · exact h.symm
        · simp only [update_cooldown_tracker]
          exact Function.update_same _ _ _

/-- C9 witness: ample balances on both legs of a `BTC/ETH`-`BTC/ETH`
opportunity, orders succeeding. -/
theorem trade_amount_and_cooldown_witness :
    TradeAmountSpec allOkGateway demoTradeOpp 10 20 (fun _ => none)
      sampleLedger 1000 4 :=
  trade_amount_and_cooldown allOkGateway demoTradeOpp 10 20 (fun _ => none)
    sampleLedger 1000 4
    (by norm_num [is_sufficient_balance, dictGetD, MINIMUM_BALANCES,
      List.lookup, demoTradeOpp, show get_currency "BTC/ETH" = "BTC" from rfl])

/-- C6: if the buy leg succeeds and the sell leg raises a venue error,
`execute_trade` returns failure, leaves the cooldown tracker and the
ledger untouched, and emits an execution-failure event distinct from the
clean insufficient-balance outcome. -/
theorem partial_leg_failure
    (gateway : String → OrderRequest → Except String Unit)
    (opportunity : Opportunity) (buy_balance sell_balance : ℚ)
    (tracker : String → Option ℚ) (ledger : AccountManager)
    (now cooldown_hours : ℚ) (e : String)
    (hsuff : is_sufficient_balance buy_balance sell_balance
        (get_currency opportunity.buy_pair)
        (get_currency opportunity.sell_pair) = true)
    (hbuy : gateway opportunity.buy_exchange
        ⟨opportunity.buy_pair, "market", "buy", min buy_balance sell_balance,
          opportunity.buy_price⟩ = Except.ok ())
    (hsell : gateway opportunity.sell_exchange
        ⟨opportunity.sell_pair, "market", "sell", min buy_balance sell_balance,
          opportunity.sell_price⟩ = Except.error e) :
    PartialLegFailureSpec
      (execute_trade gateway opportunity buy_balance sell_balance tracker
        ledger now cooldown_hours)
      tracker ledger e := by
  unfold PartialLegFailureSpec
  rw [execute_trade_of_sufficient gateway opportunity buy_balance sell_balance
    tracker ledger now cooldown_hours hsuff]
  rw [execute_orders_sell_fail gateway _ _ _ _ _ _ _ _ tracker ledger _ _ e
    hbuy hsell]
  refine ⟨rfl, rfl, rfl, rfl, by simp, by simp⟩

/-- C6 witness: the sell-failing gateway on the demo opportunity. -/
theorem partial_leg_failure_witness :
    PartialLegFailureSpec
      (execute_trade sellFailGateway demoTradeOpp 10 20 (fun _ => none)
        sampleLedger 1000 4)
      (fun _ => none) sampleLedger "venue error" :=
  partial_leg_failure sellFailGateway demoTradeOpp 10 20 (fun _ => none)
    sampleLedger 1000 4 "venue error"
    (by norm_num [is_sufficient_balance, dictGetD, MINIMUM_BALANCES,
      List.lookup, demoTradeOpp, show get_currency "BTC/ETH" = "BTC" from rfl])
    rfl rfl

/-- C10: `get_balance` returns 0 instead of raising when the balance fetch
fails or the currency is absent, and the minimum-balance lookup of
`execute_trade` defaults to 0 for unlisted currencies, so its sufficiency
check passes for them even at balance 0. -/
theorem get_balance_defaults :
    (∀ (message currency : String),
      get_balance (Except.error message) currency = 0)
    ∧ (∀ (free : String → Option ℚ) (currency : String), free currency = none →
        get_balance (Except.ok free) currency = 0)
    ∧ (∀ currency : String, executeTradeMinBalances.lookup currency = none →
        dictGetD executeTradeMinBalances currency 0 ≤ 0)
    ∧ (∀ buy_currency sell_currency : String,
        executeTradeMinBalances.lookup buy_currency = none →
        executeTradeMinBalances.lookup sell_currency = none →
        framework_balance_check 0 0 buy_currency sell_currency = true) := by
  refine ⟨fun _ _ => rfl, ?_, ?_, ?_⟩
  · intro free currency h
    simp only [get_balance, h]
  · intro currency h
    simp only [dictGetD, h, Option.getD_none, le_refl]
  · intro buy_currency sell_currency h1 h2
    simp only [framework_balance_check, dictGetD, h1, h2, Option.getD_none]
    norm_num

/-- C10 witness: an unlisted currency with zero balance. -/
theorem get_balance_defaults_witness :
    get_balance (Except.ok fun _ => none) "DOGE" = 0
      ∧ framework_balance_check 0 0 "DOGE" "XRP" = true :=
  ⟨get_balance_defaults.2.1 (fun _ => none) "DOGE" rfl,
   get_balance_defaults.2.2.2 "DOGE" "XRP" rfl rfl⟩

/-- C4 witness: a venue-keyed tracker entry that expired at 5 while the
clock reads 10; the 5%-profit candidate is executed, so its entry must
have lapsed. -/
theorem cooling_never_selected_witness : (5 : ℚ) ≤ 10 :=
  cooling_never_selected (fun o => o.buy_exchange) demoTracker 10
    (fun _ => true) false ARBITRAGE_PERCENT [coolDemoOpp] coolDemoOpp 5
    (by norm_num [execute_best_opportunity, viable_opportunities,
      sortOpportunities, executedOpportunity, is_currency_on_cooldown,
      calculate_arbitrage_profit, ARBITRAGE_PERCENT, coolDemoOpp, demoTracker,
      List.enum, List.enumFrom, List.insertionSort, List.orderedInsert,
      List.filter])
    rfl
